import Mathlib

set_option maxRecDepth 100000

set_option maxHeartbeats 2000000

/-!
Shallow embedding of the hybrid label-decision pipeline of `main.py`
(PR review reason classifier): the fixed label taxonomy, the keyword rule
engine `rule_based_label`, text/category normalization, the CSV-row loader
skeleton, the seed corpus, and the `classify` decision pipeline.

Collaborators that are not code of this repository (the sklearn
`TfidfVectorizer`/`LinearSVC` decision function, the file system and the
CSV/encoding decoder) are modelled as explicit parameters: `classify`
takes the classifier's per-label decision scores as a function argument,
and the loader takes the per-encoding read outcome of a source as a
function argument.  All decision logic present in `main.py` itself is
transcribed directly.  String primitives (`lower`, `split`, `strip`,
substring test, …) are re-implemented over `List Char` by structural
recursion so that every definition evaluates inside the kernel; on the
ASCII data of this program they agree with the Python primitives.
-/

namespace PRClassifier

-- The nine canonical labels, from main.py.
def LABEL_SPEC_INTENT : String := "1) Specification / Intent Mismatch"

def LABEL_LOGIC : String := "2) Logic / Semantic Defects"

def LABEL_BUILD_CI : String := "3) Build / CI / Environment Failures"

def LABEL_STYLE : String := "4) Style / Convention Violations"

def LABEL_TESTING : String := "5) Testing Inadequacy (Missing, Weak, or Incorrect Tests)"

def LABEL_DESIGN : String := "6) Architectural / Design Misfit"

def LABEL_PROCESS : String := "7) Process / Policy Violations (Governance Gates)"

def LABEL_TOOLING : String := "8) Tool-Use / Automation Errors"

def LABEL_OTHER : String := "9) Other / Unclear or Not Defect-Related"

def ALL_LABELS : List String :=
  [LABEL_SPEC_INTENT, LABEL_LOGIC, LABEL_BUILD_CI, LABEL_STYLE, LABEL_TESTING,
   LABEL_DESIGN, LABEL_PROCESS, LABEL_TOOLING, LABEL_OTHER]

/-- ASCII lower-casing of one character (Python `str.lower` on ASCII). -/
def charLower (c : Char) : Char :=
  if 65 ≤ c.toNat ∧ c.toNat ≤ 90 then Char.ofNat (c.toNat + 32) else c

/-- Python's `s.lower()` (ASCII). -/
def strLower (s : String) : String :=
  String.mk (s.data.map charLower)

/-- Contiguous-sublist test on character lists (helper for `strContains`). -/
def subListOf : List Char → List Char → Bool
  | pat, [] => pat.isEmpty
  | pat, c :: rest => pat.isPrefixOf (c :: rest) || subListOf pat rest

/-- Python's `pat in t` substring test on strings. -/
def strContains (t pat : String) : Bool :=
  subListOf pat.data t.data

/-- Python's `s.startswith(pre)`. -/
def strStarts (s pre : String) : Bool :=
  pre.data.isPrefixOf s.data

/-- Helper for `pyWords`: split a character list at whitespace runs,
accumulating the current (reversed) word. -/
def wordsAux : List Char → List Char → List String
  | cur, [] => if cur.isEmpty then [] else [String.mk cur.reverse]
  | cur, c :: cs =>
    if c.isWhitespace then
      if cur.isEmpty then wordsAux [] cs
      else String.mk cur.reverse :: wordsAux [] cs
    else wordsAux (c :: cur) cs

/-- Python's `s.split()`: split on whitespace runs, dropping empty chunks. -/
def pyWords (s : String) : List String :=
  wordsAux [] s.data

/-- Python's `" ".join(ws)`. -/
def joinWords : List String → String
  | [] => ""
  | [w] => w
  | w :: ws => w ++ " " ++ joinWords ws

/-- Python's `s.strip()` (whitespace at both ends). -/
def pyStrip (s : String) : String :=
  String.mk (((s.data.dropWhile Char.isWhitespace).reverse.dropWhile
    Char.isWhitespace).reverse)

/-- Python's `s.strip(ch)` for a single character `ch`. -/
def pyStripChar (ch : Char) (s : String) : String :=
  String.mk (((s.data.dropWhile (· = ch)).reverse.dropWhile (· = ch)).reverse)
-- Keyword table, transcribed entry-for-entry (duplicates included) from the
-- KEYWORDS dict literal in main.py, in its insertion order.
def KEYWORDS : List (String × List String) := [
  (LABEL_SPEC_INTENT, [
    "spec", "specification", "intent", "requirement", "requirements", "ticket",
    "story", "user story", "issue description", "api contract", "contract says", "does not match",
    "wrong behavior", "expected behavior", "expected result", "misinterpret", "misinterprets", "scope",
    "partially addresses", "outdated requirement", "wrong thing", "required was to", "doesn\x27t cover case", "does not cover case",
    "spec", "specs", "specification", "specifications", "requirement", "requirements",
    "req", "story", "stories", "ticket", "tickets", "issue",
    "issues", "jira", "backlog", "scope", "scoping", "mismatch",
    "misaligned", "misalign", "incorrect", "wrong", "unexpected", "behavior",
    "behaviour", "expected", "actual", "contract", "apicontract", "interface",
    "protocol", "semantic", "semantics", "acceptance", "criteria", "ux",
    "designspec", "product", "business", "rule", "rules", "incomplete",
    "partial", "partially", "missing", "omitted", "unimplemented", "unsupported",
    "misread", "misunderstood", "misinterpret", "misinterpreted", "ambiguity", "ambiguous",
    "inconsistent", "consistency", "compatible", "compatibility", "breaking", "regression",
    "legacy", "deprecated", "docs", "documentation", "docstring", "comment",
    "comments", "description", "descriptions", "scenario", "scenarios", "usecase",
    "usecases", "workflow", "workflows", "flag", "flags", "configuration",
    "config", "default", "defaults", "option", "options", "parameter",
    "parameters", "input", "inputs", "output", "outputs", "payload",
    "response", "status", "statuses", "http", "endpoint", "endpoints",
    "contractual", "specbug", "feature", "features", "spec mismatch", "specification mismatch",
    "requirements mismatch", "requirement mismatch", "does not match requirement", "does not match the spec", "wrong requirement implemented", "implements wrong requirement",
    "implements wrong feature", "implements wrong behavior", "wrong behavior vs spec", "behavior different from spec", "inconsistent with ticket", "ticket not fully addressed",
    "issue not fully addressed", "partially addresses the issue", "partial fix for the issue", "partial implementation of story", "misinterpreted requirement", "misinterpreted the ticket",
    "misinterpreted the story", "misinterpreted spec", "misunderstood requirement", "misunderstood the spec", "incorrect interpretation of spec", "incorrect interpretation of ticket",
    "does not follow acceptance criteria", "acceptance criteria not met", "acceptance criteria missing", "user story not satisfied", "user story only partially satisfied", "business rule violated",
    "business rules not followed", "functional mismatch", "functional requirements not met", "feature does not match description", "feature not implemented as described", "unexpected behavior for user",
    "expected behavior is different", "expected behavior not implemented", "expected result not achieved", "missing part of requirement", "missing required behavior", "missing requirement",
    "out of scope change", "out of scope for this ticket", "api contract mismatch", "api does not match docs", "documentation does not match behavior", "protocol mismatch",
    "wrong http status code", "breaking public api contract", "backward compatibility issue", "regression vs previous behavior", "does not respect feature flag semantics", "product requirement not met",
    "stakeholder expectation not met", "ux spec not followed", "ui behavior does not match ux spec", "wrongfeature", "wrongflow", "wrongscenario",
    "wrongusecase", "wrongticketid", "wrongstoryid", "wrongendpointbehavior", "wronguserflow", "wrongbusinesslogic",
    "wrongacceptance", "wrongcontract", "wrongprotocol", "wrongapibehavior", "wrongrequestshape", "wrongresponseshape",
    "wrongfieldmapping", "wrongfieldname", "wrongenumvalue", "wrongstatuscode", "wrongstatebehavior", "requirementsgap",
    "requirementsbreach", "requirementsdrift", "requirementsmismatch", "requirementsviolation", "requirementgap", "requirementbreach",
    "requirementdrift", "requirementconflict", "requirementdeviation", "specgap", "specbreach", "specdrift",
    "specconflict", "specdeviation", "specerror", "specmismatchbug", "specregression", "specoutofsync",
    "specoutdated", "specincorrect", "specincomplete", "specuncovered", "specunimplemented", "specnotfollowed",
    "specnotapplied", "specnotrespected", "misalignedbehavior", "misalignedfeature", "misalignedflow", "misalignedcontract",
    "misalignedinterface", "misalignedrequirements", "misalignedspec", "misalignedticket", "misalignedstory", "misalignedux",
    "misinterpretedflow", "misinterpretedticket", "misinterpretedstory", "misinterpretedacceptance", "misinterpretedrequirement", "misinterpretedusecase",
    "misinterpretedapi", "misinterpretedstatus", "misinterpretedcontract", "misinterpretedprotocol", "misinterpretedfield", "misreadticket",
    "misreadstory", "misreadrequirement", "misreadspecref", "misreadspecline", "misreadspeccase", "outofscoperequirement",
    "outofscopechange", "outofscopebehavior", "outofscopefeature", "outofscopeendpoint", "outofscopeparameter", "outofscopeflag",
    "outofscopevalidation", "partiallyimplemented", "partialrequirement", "partialbehavior", "partialcoverage", "partialticketfix",
    "partialstoryfix", "partialuxcompatibility", "partialbusinessrule", "partialacceptance", "featuregap", "featuremissingpiece",
    "featuremisbehavior", "featureincomplete", "featureunderimplemented", "featuremisaligned", "featurewrongmapping", "featurewrongstate",
    "featurewrongtransition", "uxbehavior mismatch", "productbehavior mismatch", "businessbehavior mismatch", "ticketbehavior mismatch", "storybehavior mismatch",
    "interface mismatch", "contract mismatch bug", "apicontract drift", "apicontract violation", "breakingapiintent", "breakinguxintent",
    "breakingproductintent", "inconsistentwithspec", "inconsistentwithticket", "inconsistentwithstory", "inconsistentwithdocs", "inconsistentwithux"
  ]),
  (LABEL_LOGIC, [
    "bug", "logic", "semantic", "null pointer", "nullpointer", "off by one",
    "off-by-one", "edge case", "edge cases", "invariant", "race condition", "data race",
    "overflow", "underflow", "wrong condition", "incorrect condition", "never executed", "dead code",
    "wrong branch", "wrong variable", "incorrect algorithm", "incorrect result", "wrong result", "fails for large",
    "fails when list is empty", "what happens when", "counter example", "counterexample", "bug", "bugs",
    "logic", "semantic", "semantics", "fault", "faults", "defect",
    "defects", "error", "errors", "exception", "exceptions", "null",
    "none", "nil", "pointer", "npe", "crash", "crashes",
    "overflow", "underflow", "wraparound", "truncate", "truncation", "rounding",
    "precision", "race", "races", "concurrency", "thread", "threads",
    "locking", "lock", "mutex", "deadlock", "livelock", "starvation",
    "hang", "timeout", "timeouts", "loop", "loops", "branch",
    "branches", "condition", "conditions", "predicate", "predicates", "boolean",
    "bool", "flag", "flags", "state", "states", "invariant",
    "invariants", "consistency", "overflowing", "index", "indices", "bounds",
    "boundary", "boundaries", "offbyone", "leak", "leaks", "leakage",
    "corrupt", "corruption", "stale", "dangling", "aliasing", "recursion",
    "recursive", "stack", "heap", "overflowed", "rollback", "rollbacking",
    "rollbacked", "rollbacks", "rollover", "wraps", "wrap", "divide",
    "division", "zero", "nan", "infinity", "inf", "NaN",
    "cast", "casting", "coerce", "coercion", "serialization", "deserialization",
    "encoding", "decoding", "logic bug", "logic error", "semantic defect", "semantic bug",
    "null pointer", "null pointer exception", "npe risk", "off by one", "off-by-one error", "index out of bounds",
    "array index out of bounds", "out of range access", "wrong condition", "incorrect condition", "broken condition check", "wrong boolean logic",
    "incorrect boolean logic", "infinite loop", "possible infinite loop", "race condition", "data race", "concurrency bug",
    "thread safety issue", "deadlock risk", "overflow bug", "integer overflow", "integer underflow", "division by zero",
    "wrong branch taken", "unreachable branch", "unreachable code", "dead code", "never executed branch", "incorrect algorithm",
    "wrong algorithm complexity", "violates invariant", "invariant not preserved", "breaks precondition", "breaks postcondition", "wrong variable updated",
    "updates wrong field", "uses wrong parameter", "wrong return value", "incorrect default value", "incorrect comparison", "floating point precision issue",
    "rounding error", "time calculation bug", "date handling bug", "edge case not handled", "edge cases broken", "null not handled",
    "empty list not handled", "error path not handled", "exception not handled", "exception swallowed", "incorrect error handling", "incorrect fallback behavior",
    "logicregression", "logicfault", "logicglitch", "logicbreak", "logicfailure", "logicviolation",
    "logiccornercase", "logicboundarybug", "logicedgefailure", "logicedgecasebug", "semanticbug", "semanticfault",
    "semanticregression", "semanticviolation", "semanticbreak", "semanticmismatch", "semanticedgecase", "semanticbordercase",
    "wrongbranchlogic", "wrongguardcheck", "wrongguardcondition", "wrongpredicate", "wrongboolean", "wrongflagvalue",
    "wrongflagbranch", "wrongstatebranch", "wrongfallbackbranch", "wrongerrorbranch", "invalidstate", "illegalstate",
    "invalidtransition", "invalidflow", "invalidbranchpath", "invalidguard", "invalidpredicate", "invalidassumption",
    "invalidprecondition", "invalidpostcondition", "preconditionviolation", "postconditionviolation", "invariantbreak", "invariantfailure",
    "invariantbreach", "invariantnotheld", "invariantnotpreserved", "overflowpath", "underflowpath", "overflowbug",
    "underflowbug", "wraparoundbug", "roundingbug", "precisionloss", "precisionbug", "floatinstability",
    "floatcomparison", "floatmismatch", "nanbug", "infbug", "naninstate", "naninresult",
    "invalidcast", "invalidcoercion", "invalidconversion", "dangerousconversion", "dangerouscast", "overlynestedlogic",
    "deepnesting", "nestedbranching", "duplicatedbranch", "duplicatedcondition", "contradictorycondition", "contradictorybranch",
    "unreachablepath", "deadlogic", "deadbranch", "unusedbranch", "unusederrorpath", "unhandlederrorpath",
    "unhandledexceptioncase", "unhandlededgecase", "unhandlednullcase", "unhandledemptycase", "unhandledoverflow", "unhandledtimeout",
    "exceptionpathmissing", "exceptionnotreported", "exceptionswallowed", "silentfailure", "silentbug", "silentcorruption",
    "statecorruption", "datacorruptionlogic", "timerlogicbug", "dateboundarybug", "calendarbug", "timezonebug",
    "localeedgecase", "stringboundarybug", "indexboundarybug"
  ]),
  (LABEL_BUILD_CI, [
    "build", "builds", "does not build", "fails to build", "ci", "ci pipeline",
    "pipeline", "job failed", "non reproducible", "non-reproducible", "not reproducible", "flaky",
    "flaky test", "nondeterministic", "non deterministic", "test matrix", "matrix job", "dependency",
    "dependencies", "build failure", "linker error", "cannot run tests", "platform difference", "environment",
    "env mismatch", "status checks", "required status checks", "required check", "lockfile", "lock file",
    "version drift", "upstream change", "docker image does not build", "cannot reproduce in ci", "build", "builds",
    "builder", "compilation", "compile", "compiler", "link", "linker",
    "linking", "artifact", "artifacts", "binary", "binaries", "package",
    "packages", "dependency", "dependencies", "deps", "version", "versions",
    "versioning", "upgrade", "downgrade", "migrate", "migration", "migrations",
    "ci", "pipeline", "pipelines", "workflow", "workflows", "job",
    "jobs", "step", "steps", "matrix", "runner", "runners",
    "agent", "agents", "executor", "executors", "environment", "environments",
    "env", "envvars", "variable", "variables", "config", "configuration",
    "configurations", "yml", "yaml", "docker", "container", "containers",
    "image", "images", "kubernetes", "cluster", "node", "nodes",
    "cache", "caches", "caching", "artifactcache", "lockfile", "lockfiles",
    "timeout", "timeouts", "flaky", "flake", "nondeterministic", "nonreproducible",
    "platform", "platforms", "os", "windows", "linux", "macos",
    "unix", "darwin", "status", "check", "checks", "gate",
    "gates", "green", "red", "queue", "queued", "retries",
    "retry", "rerun", "rebuild", "retrigger", "rerunnable", "fail",
    "failure", "failed", "build fails", "build failure", "broken build", "cannot build the project",
    "does not build on ci", "ci fails", "ci pipeline fails", "ci job failed", "failing ci job", "failing pipeline",
    "non reproducible build", "non-reproducible build", "not reproducible locally", "works locally but fails in ci", "dependency drift", "dependency mismatch",
    "missing dependency", "wrong dependency version", "version conflict in dependencies", "platform difference", "os specific failure", "windows-only build failure",
    "linux-only build failure", "macos build failure", "toolchain mismatch", "compiler version mismatch", "linker error", "linking error",
    "missing header file", "missing include file", "missing binary artifact", "environment variable not set", "ci environment misconfigured", "ci configuration issue",
    "pipeline configuration issue", "docker image does not build", "docker build failure", "container build failure", "flaky test in ci", "flaky integration test",
    "non deterministic test", "nondeterministic test outcome", "timeout in ci job", "test suite timeout", "insufficient ci resources", "disk space exhausted in ci",
    "cache corruption in ci", "cache mismatch in pipeline", "required status checks failing", "required checks not passing", "status check is red", "merge blocked by failing checks",
    "unmergeable due to ci", "buildbreak", "buildred", "buildunstable", "buildpipeline", "buildmatrix",
    "buildstepfailure", "buildconfigbreak", "buildconfigerror", "buildenvmismatch", "buildenvmissing", "buildtoolmismatch",
    "buildtoolversion", "buildtoolfailure", "buildcacheissue", "buildartifactmissing", "buildartifactmismatch", "buildartifactcorrupt",
    "buildlogerror", "buildsystemerror", "pipelinestepbreak", "pipelinegatefailure", "pipelineunstable", "pipelinesporadic",
    "cifailingjob", "cifailurepattern", "ciflakyjob", "ciflakystep", "ciinfrastructure", "ciinfraissue",
    "ciinfrabug", "ciworkerfailure", "ciworkeroffline", "ciagentoffline", "ciagentfailure", "cirunnermismatch",
    "ciimageerror", "ciimagepullerror", "ciimagecache", "cipermissiondenied", "ciscriptpermission", "ciresourceexhausted",
    "cidiskfull", "cimemoryexhausted", "ciquotaexceeded", "ciratelimit", "nondeterministicbuild", "nondeterministictest",
    "nondeterministicpipeline", "nonreproducibleci", "nonreproducibletest", "platformdrift", "platformincompatibility", "compilerversiondrift",
    "toolchainversiondrift", "linkerplatformbug", "systemlibrarymissing", "systemdependency", "osdependency", "kernelversionissue",
    "containerdrift", "dockerdrift", "dockercacheissue", "dockerlayercache", "dockernetworkissue", "dockervolumemount",
    "kubernetesclusterissue", "kubernetesnodeissue", "kubernetespodcrash", "artifactpublishfailure", "artifactdownloaderror", "artifactstoreerror",
    "artifactregistryissue", "statuscheckblocking", "statuscheckrequired", "statuschecktimeout", "requiredcheckred", "requiredcheckstuck",
    "queuedbuildforever", "queuedpipelineforever", "retryingbuild", "rerunningjob", "rerunningpipeline", "manualrerunneeded",
    "branchciincomplete", "branchnotcoveredci", "missingcijob", "missingplatformjob", "missingmatrixentry", "inconsistentmatrix",
    "inconsistentstatus", "inconsistentciresult", "inconsistentbuild", "ephemeralflakiness"
  ]),
  (LABEL_STYLE, [
    "style", "code style", "convention", "conventions", "format", "formatting",
    "formatter", "lint", "linter", "naming", "name", "rename",
    "camelcase", "snake_case", "indentation", "whitespace", "line length", "max line length",
    "spacing", "imports order", "import order", "idiomatic", "non idiomatic", "non-idiomatic",
    "readability", "readable", "console.log", "debug log", "debug", "logging",
    "log statement", "commented out code", "commented code", "nitpick", "nit", "cosmetic change",
    "style", "styling", "format", "formatted", "formatting", "formatter",
    "lint", "lints", "linting", "linter", "linters", "pylint",
    "eslint", "flake8", "checkstyle", "detekt", "ktlint", "prettier",
    "clangformat", "gofmt", "black", "isort", "whitespace", "spaces",
    "tabs", "indent", "indents", "indentation", "align", "alignment",
    "column", "columns", "margin", "margins", "wrap", "wrapping",
    "linewidth", "linebreak", "newline", "newlines", "braces", "brace",
    "brackets", "semicolon", "semicolons", "quote", "quotes", "quoting",
    "singlequote", "doublequote", "camelcase", "snakecase", "pascalcase", "kebabcase",
    "naming", "name", "names", "rename", "renaming", "unused",
    "useless", "deadcode", "cleanup", "cleanups", "refactor", "refactoring",
    "tidy", "tidying", "ordering", "order", "sorted", "sorting",
    "imports", "importorder", "comment", "comments", "docstyle", "docblock",
    "docblocks", "docstring", "docstrings", "header", "headers", "footer",
    "footers", "todo", "todos", "fixme", "nit", "nitpick",
    "cosmetic", "aesthetic", "readability", "readable", "consistent", "inconsistent",
    "convention", "conventions", "guideline", "guidelines", "coding style issue", "style violation",
    "style problem", "style guidelines not followed", "convention violation", "naming convention not followed", "naming issue", "bad variable name",
    "bad method name", "rename this variable", "rename this method", "formatting issue", "code not formatted", "please run the formatter",
    "please run prettier", "please run black", "please run gofmt", "please run clang format", "lint error", "linter error",
    "lint warnings", "eslint error", "flake8 error", "pylint warning", "checkstyle violation", "imports not ordered",
    "wrong import order", "unused import", "unused variable", "dead assignment", "trailing whitespace", "extra whitespace",
    "inconsistent indentation", "tabs instead of spaces", "spaces instead of tabs", "line length too long", "line exceeds maximum length", "brace style issue",
    "braces on same line", "braces on next line", "missing newline at end of file", "missing end of file newline", "commented out code", "debug log left in",
    "console.log left in", "leftover debug logging", "temporary logging statement", "nitpick comment", "small nit", "minor style nit",
    "logging level misuse", "inconsistent code style", "not following project style guide", "stylenoncompliant", "styleinconsistency", "styledeviation",
    "stylenotfollowed", "stylewarning", "styleerror", "codeformatissue", "unformattedblock", "unformattedfile",
    "unformattedchunk", "whitespacenoise", "indentnoise", "indentmixed", "indenttabmixed", "indentspacemixed",
    "misalignedblock", "misalignedcase", "misalignedparam", "misalignedarg", "misalignedcomment", "braceposition",
    "braceplacement", "bracemisaligned", "bracketplacement", "parensspacing", "operatorspacing", "commaspacing",
    "colons spacing", "semicolonspacing", "longchainedcall", "onelettername", "nonmeaningfulname", "crypticidentifier",
    "badclassname", "badinterfacename", "badpackagename", "badmodulename", "noisycomment", "obviouscomment",
    "outdatedcomment", "commentdrift", "commentnotsynced", "commentedblock", "commenteddebug", "commentedlegacy",
    "logleftover", "printleftover", "printfdebug", "debugprint", "debugstatement", "debuggingartifact",
    "nitstyle", "nitlevelissue", "cosmeticonly", "aestheticonly", "layoutonly", "reflowneeded",
    "reformatneeded", "reindentneeded", "renamenecessary", "renameidentifier", "cleanuplocal", "cleanupimports",
    "cleanupstyle", "styleruleviolation", "stylerulenotapplied", "stylerulenotrespected", "styleconfigmissing", "styleconfigdrift",
    "styletoolmismatch", "lintercomplaint", "linterwarning", "lintersuggestion", "linterautofix", "lintautofix",
    "lintnoise", "lintonlychange", "formatonlypatch", "formatnoise", "diffnoisy", "diffnoisypadding",
    "blanklinesnoise", "blanklinespamming", "headerstyleissue", "filenamestyle", "foldernamestyle", "constantnamestyle",
    "enumstyle", "macrostyle", "annotationstyle", "decoratorstyle", "docblockstyle", "apidocstyle",
    "markdownstyle", "markdownformat", "spurioussemicolon", "spuriouscomma", "redundantparentheses", "redundantcast",
    "redundantimports", "redundantwhitespace"
  ]),
  (LABEL_TESTING, [
    "missing tests", "no tests", "add tests", "test is missing", "weak tests", "weak test",
    "weak assertions", "test coverage", "coverage", "coverage drop", "unit test", "unit tests",
    "integration test", "integration tests", "regression test", "regression tests", "incorrect tests", "wrong assertion",
    "assertion is wrong", "failing test", "failing tests", "brittle test", "test case", "test cases",
    "edge-case tests", "coverage threshold", "threshold not met", "test", "tests", "testing",
    "tester", "suite", "suites", "unittest", "pytest", "junit",
    "nunit", "mocha", "jest", "karma", "spec", "specs",
    "specification", "assert", "asserts", "assertion", "assertions", "expect",
    "expects", "expectation", "matcher", "matchers", "mock", "mocks",
    "mocking", "stub", "stubs", "fake", "fakes", "spy",
    "spies", "fixture", "fixtures", "harness", "harnesses", "coverage",
    "coverages", "coveragexml", "coveragerc", "threshold", "thresholds", "metric",
    "metrics", "flaky", "flake", "regression", "regressions", "oracle",
    "oracles", "golden", "snapshot", "snapshots", "baseline", "baselines",
    "scenario", "scenarios", "case", "cases", "edgecase", "edgecases",
    "negative", "positive", "smoke", "sanity", "integration", "e2e",
    "endtoend", "manual", "automation", "automated", "ci", "matrix",
    "slow", "fast", "timing", "timeout", "timeouts", "rerun",
    "reruns", "rerunnable", "skipped", "skip", "xfail", "fail",
    "fails", "failed", "failing", "pass", "passed", "passing",
    "nonpassing", "nontestable", "untested", "uncovered", "ignored", "ignore",
    "reliable", "missing tests", "no tests added", "no test added", "no unit tests added", "missing unit tests",
    "missing integration tests", "missing regression tests", "missing test coverage", "weak tests", "weak test coverage", "insufficient test coverage",
    "low test coverage", "test coverage too low", "coverage threshold not met", "coverage drop", "coverage decreased", "tests incorrect",
    "incorrect test assertions", "test asserts wrong behavior", "tests do not match spec", "tests not updated", "tests not adjusted", "tests not covering edge cases",
    "no negative test cases", "no error path tests", "happy path only", "flaky test", "flaky tests", "unstable tests",
    "test suite failing", "test failure in ci", "regression test missing", "regression scenario not tested", "no e2e tests for this", "no end to end tests",
    "no integration coverage", "no database tests", "mocking is incorrect", "test double misuse", "test data incomplete", "test data unrealistic",
    "test naming unclear", "test case missing for new behavior", "add tests for this change", "add unit tests for this path", "please strengthen tests", "please add regression tests",
    "testmissing", "testabsent", "testomitted", "testnotadded", "testshallow", "testweak",
    "testincomplete", "testpartial", "thedgecaseuntested", "edgepathuntested", "errorpathuntested", "boundaryuntested",
    "boundarynotcovered", "happyonly", "happyonlypath", "noerrorcoverage", "noexceptioncoverage", "nonegativepath",
    "onlypositivepath", "onlyhappyflow", "onlysmoketest", "nointegrationtest", "noe2etest", "nosystemtest",
    "noperformancetest", "noloadtest", "nocoveragetarget", "coveragedrop", "coveragemissing", "coverageregression",
    "coveragelow", "coverageslip", "coveragegap", "coveragehole", "coverageunreported", "coverageignored",
    "testflakiness", "testintermittent", "testrandomfailure", "testnondeterministic", "testorderdependence", "testorderbug",
    "testtimingbug", "testtimeout", "testhang", "testsuitehang", "testsuitecrash", "testsuitebroken",
    "testenvdrift", "testenvmissing", "testdataleakage", "testpollution", "testsharedstate", "testcoupling",
    "assertweak", "assertnarrow", "asserttoobroad", "asserttoospcific", "asserterror", "expectedwrong",
    "expectedvaluewrong", "expectedmismatch", "oracleweak", "oracleincorrect", "oracleblindspot", "falsepositivepass",
    "falsepass", "falsenegativefail", "failingbutcorrect", "passingbutwrong", "snapshotoutdated", "snapshotdrifted",
    "goldenfiledrift", "goldenfileoutdated", "testrefactoringneeded", "testdatabrittle", "testrandomseed", "testcasegenerator",
    "testscenariogap", "testmatrixgap", "noapprovaltest", "noregressionguard", "missingnonregression", "incompletefixture",
    "fixturebug", "fixtureleak", "testnamingbad", "testsmisleading", "manualtestonly", "manualverificationonly",
    "nonautomatedtest"
  ]),
  (LABEL_DESIGN, [
    "architecture", "architectural", "design", "design misfit", "coupling", "tight coupling",
    "cohesion", "layering", "layered", "boundary", "service boundary", "api boundary",
    "abstraction", "bad abstraction", "leaky abstraction", "dependency cycle", "circular dependency", "duplicated functionality",
    "duplicate logic", "duplicate code", "performance budget", "performance regression", "hot path", "hotpath",
    "maintainability", "hard to maintain", "system evolution", "extensibility", "scalability", "belongs in a different class",
    "belongs in the service layer", "architecture", "architectural", "architected", "design", "designs",
    "designed", "pattern", "patterns", "antipattern", "antipatterns", "component",
    "components", "module", "modules", "layer", "layers", "layering",
    "tier", "tiers", "service", "services", "domain", "domains",
    "entity", "entities", "aggregate", "aggregates", "boundary", "boundaries",
    "boundarycontext", "context", "contexts", "coupling", "decoupling", "cohesion",
    "encapsulation", "abstraction", "abstractions", "interface", "interfaces", "api",
    "apis", "contract", "contracts", "ownership", "owner", "owners",
    "orchestration", "orchestrator", "orchestrators", "coordination", "coordinator", "coordinators",
    "strategy", "strategies", "factory", "factories", "repository", "repositories",
    "controller", "controllers", "view", "views", "presenter", "presenters",
    "usecase", "usecases", "dto", "dtos", "mapper", "mappers",
    "adapter", "adapters", "gateway", "gateways", "port", "ports",
    "plugin", "plugins", "extension", "extensions", "hook", "hooks",
    "monolith", "monolithic", "microservice", "microservices", "scalable", "scalability",
    "performance", "latency", "throughput", "capacity", "maintainable", "maintainability",
    "testability", "reusability", "flexibility", "extensibility", "responsibility", "architecture issue",
    "architectural violation", "breaks our architecture", "violates architecture boundaries", "violates service boundary", "crosses service boundary", "layering violation",
    "violates layering", "wrong layer for this logic", "logic in wrong layer", "poor design", "design smell", "design misfit",
    "not aligned with design", "not aligned with module design", "bad abstraction", "leaky abstraction", "abstraction leak", "mixes concerns",
    "mixed responsibilities", "violates separation of concerns", "too much responsibility in this class", "god object", "overly complex method", "method too complex",
    "class too big", "high coupling", "tight coupling", "low cohesion", "circular dependency", "dependency cycle",
    "service dependency cycle", "wrong ownership of data", "wrong ownership of logic", "business logic in controller", "business logic in view", "persistence logic in controller",
    "domain logic in repository", "performance budget violation", "performance regression risk", "scalability concern", "memory footprint concern", "maintainability issue",
    "hard to maintain code", "not extensible design", "violates domain model", "inconsistent domain model", "api surface too large", "leaking internal details",
    "violates clean architecture", "not following hexagonal architecture", "not following ddd principles", "designsmell", "designanti pattern", "designproblem",
    "designflaw", "designregression", "designtradeoffbad", "designnonoptimal", "designovercomplicated", "designoversimplified",
    "designrigid", "designnotflexible", "designtightcoupling", "designloosecontract", "designinconsistency", "designunsound",
    "architecturaldrift", "architecturalerosion", "architectureerosion", "architecturemisfit", "architecturemismatch", "architectureviolation",
    "layerbreach", "layercrossing", "layerleak", "layerinversion", "domainleak", "domainpollution",
    "infrastructureleak", "persistenceleak", "uileak", "controllerfat", "servicefat", "godservice",
    "godsaga", "godcontroller", "godmanager", "godclass", "megaobject", "multipleresponsibilities",
    "noncohesive", "overcoupled", "underabstracted", "overabstracted", "prematureabstraction", "wrongabstraction",
    "wrongownership", "wrongresponsibility", "wrongboundary", "wrongmoduleboundary", "wrongservicelayout", "wrongaggregation",
    "wronggranularity", "wronglayer", "wronglayerplacement", "modulecycle", "packagecycle", "cyclicdependency",
    "circularreference", "fatinterface", "fatapi", "bloatedapi", "leakyapi", "chatt yapi",
    "chattyprotocol", "overchatt yservice", "oversharedschema", "sharedschema", "tightschema", "performancehotspot",
    "perfhotspot", "perfregression", "latencyregression", "latencyhotspot", "memoryhotspot", "memoryregression",
    "allocationheavy", "gcpressure", "noncachefriendly", "nonstreamable", "nonscalableapproach", "horizontalnon scalable",
    "verticalnon scalable", "maintenancetricky", "maintenancenightmare", "testabilitypoor", "testabilityissue", "configurationhard",
    "extensionhard", "changescary", "designnotdocumented", "designnotaligneddoc", "designnotalignedspec", "architecturedecisionignored",
    "adrignored"
  ]),
  (LABEL_PROCESS, [
    "process", "policy", "policies", "governance", "cla", "license agreement",
    "dco", "sign-off", "sign off", "required reviewers", "required reviewer", "code owners",
    "code owner", "changelog", "change log", "coverage threshold", "status check", "required status check",
    "unmergeable", "cannot be merged", "merge blocked", "branch protection", "protected branch", "release notes",
    "template not filled", "missing template", "metadata", "follow the template", "process", "processes",
    "workflow", "workflows", "policy", "policies", "governance", "rules",
    "rule", "guideline", "guidelines", "standard", "standards", "procedure",
    "procedures", "protocol", "protocols", "checklist", "checklists", "template",
    "templates", "approval", "approvals", "approve", "approved", "reviewer",
    "reviewers", "assignee", "assignees", "stakeholder", "stakeholders", "owner",
    "owners", "ownership", "governor", "gate", "gates", "gatekeeper",
    "gatekeepers", "signoff", "signoffs", "signoffed", "signedoff", "cla",
    "dco", "license", "licenses", "licensing", "compliance", "compliant",
    "noncompliant", "violation", "violations", "breach", "breaches", "policycheck",
    "securitycheck", "qualitycheck", "statuscheck", "statuschecks", "blocked", "blocking",
    "unmergeable", "protected", "protection", "branch", "branches", "branching",
    "workflowrule", "required", "mandatory", "optional", "deprecated", "sunset",
    "lifecycle", "milestone", "milestones", "sprint", "sprints", "iteration",
    "iterations", "backlog", "grooming", "triage", "triaging", "escalation",
    "escalations", "handoff", "handoffs", "release", "releases", "releasing",
    "freeze", "freezes", "audit", "audits", "auditlog", "auditing",
    "traceability", "retention", "process violation", "policy violation", "does not follow our process", "does not follow project policy",
    "governance rule not satisfied", "governance gate failing", "missing cla signature", "cla not signed", "missing dco sign off", "dco sign-off missing",
    "missing signoff", "sign-off footer missing", "required reviewers not assigned", "required reviewer missing", "required approvals missing", "approval from maintainer required",
    "approval from code owner required", "codeowners approval missing", "missing changelog entry", "changelog entry required", "release notes missing", "jira ticket missing",
    "missing ticket reference", "missing issue link", "branch protection rule failing", "branch protection violation", "target branch not allowed", "cannot merge into master directly",
    "must open pr against develop branch", "missing label on pull request", "required label missing", "required status checks not configured", "coverage threshold policy", "performance budget policy",
    "security policy violation", "license policy violation", "third party license not allowed", "missing security review", "requires security review", "requires design review",
    "process step skipped", "template not followed", "pull request template not filled", "checklist not completed", "checklist items unchecked", "governance check failed",
    "unmergeable due to policy", "policy check is red", "processbreach", "processgap", "processskipped", "processnotfollowed",
    "processoffpath", "processnoncompliant", "processdeviation", "processexception", "processviolationbug", "reviewpolicyviolation",
    "reviewprocessskipped", "reviewmissingstep", "reviewerrolemissing", "approvalworkflowbroken", "approvalmissing", "approvermissing",
    "mandatoryreviewmissing", "mandatorycheckmissing", "mandatorygatefailed", "mandatorypolicy", "policyenforced", "policybreach",
    "policynotmet", "policynotfollowed", "policynotrespected", "licenserequired", "licensenotchecked", "licensenotdeclared",
    "licensetextmissing", "licenserestriction", "compliancegap", "complianceissue", "compliancebreach", "securitygatefailed",
    "securityreviewmissing", "securitysignoffmissing", "qualitygatefailed", "qualitygatenotmet", "statuscheckmissing", "statuscheckskipped",
    "requiredstatusabsent", "requiredgateabsent", "branchpolicybreach", "branchrulebreach", "branchprotectionbreak", "directpushforbidden",
    "directpushattempt", "directpushblocked", "rebaserequired", "rebasenotdone", "syncwithmainrequired", "syncwithdeveloprequired",
    "outofdatebranch", "outofdatewithtarget", "outofdatewithmain", "missingtemplatedata", "missingprtemplate", "templateignored",
    "checklistignored", "checklistincomplete", "unfilledcheckitem", "ticketidmissing", "ticketidwrong", "issuereferencemissing",
    "issuereferencewrong", "milestonemissing", "milestonewrong", "sprintnotlinked", "epicnotlinked", "audittrailgap",
    "auditmissingentry", "auditeventmissing", "retentionpolicyignored", "governanceflag", "governancewarning", "governancefail",
    "releaseprocessbreach", "releasecheckmissing", "releaseapprovermising", "rolloutpolicybreach", "rollbackpolicybreach"
  ]),
  (LABEL_TOOLING, [
    "tool", "tooling", "automation", "automated job", "script", "generator",
    "code generator", "scaffolding", "linter command", "test runner", "release job", "ci job",
    "wrong flag", "wrong option", "command line option", "runner configuration", "runner config", "cache",
    "cache issue", "stale cache", "pre commit", "pre-commit", "precommit", "docker script",
    "wrapper script", "rerun the generator", "rerun the code generator", "tool", "tools", "tooling",
    "cli", "command", "commands", "script", "scripts", "scripting",
    "automation", "automations", "job", "jobs", "runner", "runners",
    "executor", "executors", "task", "tasks", "hook", "hooks",
    "precommit", "prepush", "postmerge", "prebuild", "postbuild", "plugin",
    "plugins", "extension", "extensions", "wrapper", "wrappers", "launcher",
    "launchers", "binary", "binaries", "utility", "utilities", "helper",
    "helpers", "generator", "generators", "scaffold", "scaffolds", "scaffolding",
    "linter", "linters", "formatter", "formatters", "bundler", "bundlers",
    "webpack", "rollup", "gulp", "grunt", "make", "cmake",
    "ninja", "maven", "gradle", "ant", "sbt", "yarn",
    "npm", "pnpm", "pip", "poetry", "tox", "pytest",
    "runnercli", "coverage", "profiler", "profilers", "analyzer", "analyzers",
    "inspector", "inspectors", "debugger", "debuggers", "emulator", "emulators",
    "simulator", "simulators", "monitor", "monitors", "daemon", "daemons",
    "service", "services", "agent", "agents", "orchestrator", "orchestrators",
    "scheduler", "schedulers", "pipeline", "pipelines", "workflow", "workflows",
    "cron", "tool misuse", "misuse of tool", "tooling issue", "tooling error", "automation error",
    "automation script failed", "script failure", "release script failed", "build script failed", "wrong cli flag", "wrong command line option",
    "incorrect flag passed", "incorrect command used", "using wrong command", "using wrong script", "linter command failed", "linter not run",
    "formatter not run", "generator not run", "code generator not executed", "forgot to run code generation", "migration not generated", "database migration missing",
    "schema migration missing", "tool configuration wrong", "misconfigured tool", "misconfigured linter", "misconfigured ci job", "ci job misconfiguration",
    "wrong test runner", "wrong test command", "wrong environment for tool", "stale cache", "tool cache corrupted", "tool cache outdated",
    "pre-commit hook failed", "pre commit hook failed", "pre-commit not configured", "local tooling not aligned with ci", "local tool version mismatch", "different tool versions",
    "missing plugin for tool", "missing tool dependency", "automation pipeline broken", "release job failed", "artifact upload failed", "artifact download failed",
    "package publishing script failed", "docker push script failed", "deployment script failed", "toolmisconfiguration", "toolmisuse", "toolabuse",
    "tooldrift", "toolversiondrift", "toolversionconflict", "toolversionold", "toolversionunsupported", "tooloptionwrong",
    "toolargumentwrong", "toolflag wrong", "toolinvocationbug", "toolinvocationerror", "toolinvocationmissing", "toolpathmissing",
    "toolexecutablemissing", "toolexecutionfailure", "tooltimeout", "toolhang", "toolcrash", "toolstacktrace",
    "toolstackoverflow", "toolmemoryexhausted", "toolresourceexhausted", "toolpermissions", "toolpermissiondenied", "scriptcrash",
    "scriptmissingdep", "scriptmissingbinary", "scriptnotexecutable", "scriptpathwrong", "scriptargwrong", "scriptflagwrong",
    "scriptenvmissing", "scriptenvmismatch", "scriptconfigdrift", "automationbreak", "automationpipelinebreak", "automationjobfail",
    "automationworkflowfail", "automationschedulerfail", "autodeployfail", "autoreleasefail", "autotagfail", "autobumpfail",
    "automergeblocked", "automergefail", "generatornotrun", "generatorstale", "generatoroutofdate", "generatoroutputmissing",
    "generatoroutputdirty", "migrationsnotapplied", "migrationsnotgenerated", "migrationsoutofdate", "schemaoutofsync", "schemadrift",
    "dbtoolmismatch", "dbmigrationtool", "dbmigrationfailure", "profilernotconfigured", "analysistoolmissing", "analysistoolmisconfigured",
    "scanjobfail", "scanresultmissing", "lintjobfail", "formatjobfail", "bundlejobfail", "bundlerconfigerror",
    "packagetoolerror", "packagetoolmissing", "publishscriptfail", "publishtoolfail", "dockerbuildscriptfail", "dockerrunscriptfail",
    "helmtoolfail", "clustertoolfail", "monitoringtoolfail", "loggingtoolfail", "tracingtoolfail", "metricscollectorfail",
    "agenttooloffline", "agenttoolcrash", "workeragenttool", "toolinggatefailure", "toolingincompatibility", "toolingsetupmissing",
    "toolingsetupbroken"
  ]),
  (LABEL_OTHER, [
    "looks good to me", "lgtm", "thanks", "thank you", "nice refactor", "nice change",
    "good job", "general question", "not a rejection", "small nit", "nit but not blocking", "just a comment",
    "just a thought"
  ])
]

-- Seed examples, transcribed from the SEED_LABEL_TEXTS dict literal in main.py,
-- in its insertion order (the catch-all label maps to the empty list).
def SEED_LABEL_TEXTS : List (String × List String) := [
  (LABEL_SPEC_INTENT, [
    "this change does not match the requirement", "wrong behavior compared to the spec",
    "misinterprets the issue description", "does not implement the requested feature correctly",
    "behavior is different from what the ticket describes", "implements the wrong requirement entirely",
    "the API contract says null must be allowed", "this does not cover all cases from the user story"
  ]),
  (LABEL_LOGIC, [
    "null pointer exception risk", "off by one error in the loop",
    "logic bug when flag is false", "wrong condition in the if statement",
    "breaks edge cases when list is empty", "incorrect algorithm for this data structure",
    "this branch will never be executed", "updating the wrong variable here",
    "this will overflow for large n"
  ]),
  (LABEL_BUILD_CI, [
    "fails to build on the ci server", "ci pipeline fails on linux environment",
    "non reproducible build between local and ci", "missing dependency in the build configuration",
    "works locally but fails in ci", "docker image does not build successfully",
    "test suite times out only in ci environment", "flaky test in the CI job"
  ]),
  (LABEL_STYLE, [
    "coding style problem according to our guide", "formatting issue: please run the formatter",
    "naming convention is not followed for this class", "please run the linter before pushing",
    "does not follow our style guide for imports", "indentation and spacing are inconsistent",
    "line length exceeds the maximum allowed", "this pattern is not idiomatic for this codebase"
  ]),
  (LABEL_TESTING, [
    "missing tests for this new behavior", "weak test coverage around edge cases",
    "no unit tests were added for this change", "tests are incorrect and assert the wrong behavior",
    "please add more test cases for negative scenarios", "this code path is not covered by any test",
    "need regression tests for the bug you are fixing", "coverage threshold is not met for this change"
  ]),
  (LABEL_DESIGN, [
    "breaks our architecture by crossing service boundaries", "not aligned with the design of this module",
    "violates layering between api and data access", "poor design: mixes concerns from different layers",
    "bad abstraction, this logic belongs in a different class", "introduces tight coupling between unrelated modules",
    "creates a circular dependency in the package structure", "this adds an O(n^2) algorithm in a hot path"
  ]),
  (LABEL_PROCESS, [
    "does not follow our contribution process", "missing cla signature for this author",
    "policy violation: target branch is not allowed", "needs approval from maintainer according to policy",
    "required labels are missing from this pull request", "coverage threshold not met according to policy",
    "you must update the changelog before we can merge"
  ]),
  (LABEL_TOOLING, [
    "misuse of tool: please use our wrapper script", "failed linter command due to wrong arguments",
    "automation script error when running the release job", "wrong build flag passed to the compiler",
    "generator was not run correctly for the new schema", "using the wrong test runner command for this project",
    "please rerun the code generator before committing", "pre-commit hooks were not run on this change"
  ]),
  (LABEL_OTHER, [
  ])
]
/-- The per-label hit count of `rule_based_label`: the number of keyword-table
entries (duplicate entries counted individually) occurring as substrings of
the text, i.e. Python's `sum(1 for kw in kws if kw in t)`. -/
def entryHits (t : String) (kws : List String) : Nat :=
  (kws.filter (fun kw => strContains t kw)).length

/-- Python's `max(scores, key=scores.get)` paired with the looked-up value:
the first pair (in list order) whose value no later pair strictly exceeds. -/
def pyMaxByVal : List (String × Nat) → Option (String × Nat)
  | [] => none
  | q :: s =>
    match pyMaxByVal s with
    | none => some q
    | some m => some (if q.2 < m.2 then m else q)

/-- The `scores` dict of `rule_based_label`, built over an arbitrary keyword
table: skip labels with an empty keyword list, record positive hit counts. -/
def scoresOf (L : List (String × List String)) (t : String) : List (String × Nat) :=
  L.filterMap (fun p =>
    if p.2.isEmpty then none
    else if 0 < entryHits t p.2 then some (p.1, entryHits t p.2) else none)

/-- `rule_based_label` from main.py: keyword voting with the two-branch
decision policy (strong signal, or single cue on a short text). -/
def rule_based_label (text : String) : Option String :=
  let t := strLower text
  let words := pyWords t
  match pyMaxByVal (scoresOf KEYWORDS t) with
  | none => none
  | some (best_label, max_hits) =>
    if 2 ≤ max_hits then some best_label
    else if max_hits = 1 ∧ words.length ≤ 8 then some best_label
    else none
/-- `clean_text` from main.py: newlines and carriage returns to spaces, then
collapse whitespace runs to single spaces. -/
def clean_text (text : String) : String :=
  joinWords (pyWords (String.mk (text.data.map
    (fun c => if c = '\n' ∨ c = '\r' then ' ' else c))))

/-- Characters after the first `)` (Python `c.split(")", 1)[1]`). -/
def afterParen (l : List Char) : List Char :=
  (l.dropWhile (fun c => c ≠ ')')).drop 1

/-- The category-string core built by `normalize_category`: strip surrounding
whitespace and quote characters, and when a `)` is present drop everything up
to and including the first one, stripping the remainder. -/
def categoryCore (raw : String) : String :=
  let c := pyStripChar (Char.ofNat 39) (pyStripChar '"' (pyStrip raw))
  if c.data.contains ')' then pyStrip (String.mk (afterParen c.data)) else c

/-- The ordered prefix/substring rules of `normalize_category` in main.py,
applied to the lower-cased category core; the final branch is the catch-all
default. -/
def category_rules (cl : String) : String :=
  if strStarts cl "specification" || strContains cl "intent mismatch" then
    LABEL_SPEC_INTENT
  else if strStarts cl "logic" || strContains cl "semantic" then LABEL_LOGIC
  else if strStarts cl "build" || strContains cl "ci/environment" ||
      strContains cl "environment failure" then LABEL_BUILD_CI
  else if strStarts cl "style" || strContains cl "convention violation" then
    LABEL_STYLE
  else if strStarts cl "testing" || strContains cl "testing inadequacy" ||
      strContains cl "missing, weak, or incorrect tests" then LABEL_TESTING
  else if strStarts cl "architectural" || strContains cl "design misfit" then
    LABEL_DESIGN
  else if strStarts cl "process" || strStarts cl "policy" then LABEL_PROCESS
  else if strStarts cl "tool-use" || strStarts cl "tool use" ||
      strContains cl "automation error" then LABEL_TOOLING
  else if strStarts cl "other" then LABEL_OTHER
  else LABEL_OTHER

/-- `normalize_category` from main.py: `None` on the empty string (Python
`if not raw: return None`), otherwise the matched canonical label. -/
def normalize_category (raw : String) : Option String :=
  if raw = "" then none
  else some (category_rules (strLower (categoryCore raw)))

/-- One CSV row as `csv.DictReader` hands it to the loader: each accepted
field-name alias is either absent (`none`) or holds a string. -/
structure Row where
  body_comment : Option String
  comment_body : Option String
  body : Option String
  text : Option String
  Category : Option String
  category : Option String
  label : Option String

/-- Python's `a or b` on optional strings: the empty string is falsy. -/
def pyOr (a b : Option String) : Option String :=
  match a with
  | some s => if s = "" then b else some s
  | none => b

/-- The loader's text-field fallback chain
`row.get("body_comment") or row.get("comment_body") or row.get("body") or row.get("text")`. -/
def rawTextOf (r : Row) : Option String :=
  pyOr r.body_comment (pyOr r.comment_body (pyOr r.body r.text))

/-- The loader's category-field fallback chain
`row.get("Category") or row.get("category") or row.get("label")`. -/
def rawCatOf (r : Row) : Option String :=
  pyOr r.Category (pyOr r.category r.label)

/-- The per-row body of `load_csv_examples`: clean the text, skip the row if
it is empty, normalize the category, skip the row if that yields `None`,
otherwise emit the (text, label) training example. -/
def processRow (r : Row) : Option (String × String) :=
  let text := clean_text ((rawTextOf r).getD "")
  if text = "" then none
  else
    match normalize_category ((rawCatOf r).getD "") with
    | none => none
    | some lab => some (text, lab)

/-- What reading one source under one encoding can do, as observed by the
loader loop: parse completely (`ok`), raise `UnicodeDecodeError` after the
reader has yielded a prefix of the rows (`decodeFail`), or raise any other
exception after a prefix (`err`). -/
inductive ReadOutcome where
  | ok (rows : List Row)
  | decodeFail (rows : List Row)
  | err (rows : List Row)

/-- The fixed encoding fallback order of `load_csv_examples`. -/
def encodings_to_try : List String :=
  ["utf-8-sig", "utf-8", "cp1256", "latin-1"]

/-- The encoding loop of `load_csv_examples` for one source: rows are
appended to the accumulator as they are processed; on success or on a
non-decode exception the loop breaks, on `UnicodeDecodeError` it continues
with the next encoding (keeping whatever was already appended). -/
def loadSourceAux (attempt : String → ReadOutcome) :
    List String → List (String × String) → List (String × String)
  | [], acc => acc
  | enc :: rest, acc =>
    match attempt enc with
    | ReadOutcome.ok rows => acc ++ rows.filterMap processRow
    | ReadOutcome.decodeFail rows =>
      loadSourceAux attempt rest (acc ++ rows.filterMap processRow)
    | ReadOutcome.err rows => acc ++ rows.filterMap processRow

/-- All examples one existing source contributes to the corpus. -/
def loadSource (attempt : String → ReadOutcome) : List (String × String) :=
  loadSourceAux attempt encodings_to_try []

/-- `load_csv_examples` over the existing sources, each modelled by its
per-encoding read outcome; sources are read sequentially and their
contributions concatenated. -/
def load_csv_examples (sources : List (String → ReadOutcome)) :
    List (String × String) :=
  (sources.map loadSource).flatten

/-- `seed_examples_from_dict`: the texts, in dict order. -/
def seed_texts : List String :=
  (SEED_LABEL_TEXTS.map Prod.snd).flatten

/-- `seed_examples_from_dict`: the parallel labels, in dict order. -/
def seed_labels : List String :=
  (SEED_LABEL_TEXTS.map (fun p => p.2.map (fun _ => p.1))).flatten

/-- `train_texts = seed_texts + csv_texts`. -/
def train_texts (csv_texts : List String) : List String :=
  seed_texts ++ csv_texts

/-- `train_labels = seed_labels + csv_labels`. -/
def train_labels (csv_labels : List String) : List String :=
  seed_labels ++ csv_labels

/-- `clf.classes_` after fitting on the seed corpus alone (zero external
sources): sklearn stores the sorted distinct training labels, and the nine
label strings sort lexicographically in ordinal order, so this is
`ALL_LABELS` restricted to the labels present in the seed set. -/
def seedClasses : List String :=
  ALL_LABELS.filter (fun l => seed_labels.contains l)

/-- The `/classify` response record. -/
structure ClassificationResult where
  predicted_label : Option String
  margin : ℚ
  best_score : ℚ
deriving DecidableEq

/-- The fixed confidence threshold `CONFIDENCE_MARGIN = 0.25` (as the
normalized rational 1/4; `Rat.sub` and `Rat.div` are irreducible to the
elaborator, so the kernel-evaluable `mkRat` form is used and proved equal
to `1 / 4` in `CONFIDENCE_MARGIN_eq`). -/
def CONFIDENCE_MARGIN : ℚ := mkRat 1 4

/-- Kernel-evaluable rational subtraction (proved equal to `Sub.sub` in
`qsub_eq`). -/
def qsub (a b : ℚ) : ℚ :=
  mkRat (a.num * b.den - b.num * a.den) (a.den * b.den)

/-- `np.argmax` helper: carry the best index and value seen so far together
with the index of the next element; strictly greater values replace, so the
first maximal element wins. -/
def argmaxAux : Nat → ℚ → Nat → List ℚ → Nat
  | bi, _, _, [] => bi
  | bi, bv, i, x :: xs =>
    if bv < x then argmaxAux i x (i + 1) xs else argmaxAux bi bv (i + 1) xs

/-- `np.argmax`: index of the first maximal element (0 on the empty list,
which never arises with the fixed label set). -/
def argmaxIdx : List ℚ → Nat
  | [] => 0
  | x :: xs => argmaxAux 0 x 1 xs

/-- Insertion into an ascending list (helper for `pySort`). -/
def insertSorted (x : ℚ) : List ℚ → List ℚ
  | [] => [x]
  | y :: ys => if x ≤ y then x :: y :: ys else y :: insertSorted x ys

/-- `np.sort`: the scores in ascending order. -/
def pySort (l : List ℚ) : List ℚ :=
  l.foldr insertSorted []

/-- `best_score = scores[best_idx]` with `best_idx = np.argmax(scores)`. -/
def bestScoreOf (scores : List ℚ) : ℚ :=
  scores.getD (argmaxIdx scores) 0

/-- `second_best = sorted_scores[-2] if len(sorted_scores) > 1 else 0.0`. -/
def secondBestOf (scores : List ℚ) : ℚ :=
  let sorted := pySort scores
  if 1 < sorted.length then sorted.getD (sorted.length - 2) 0 else 0

/-- `margin = best_score - second_best`. -/
def marginOf (scores : List ℚ) : ℚ :=
  qsub (bestScoreOf scores) (secondBestOf scores)

/-- The highest score in a list (0 on the empty list); the specification's
"highest per-label decision score". -/
def listMaxQ : List ℚ → ℚ
  | [] => 0
  | x :: xs => xs.foldl max x

/-- Step 2 of `classify` (the SVM branch): threshold the margin, returning
the catch-all label or `classes[best_idx]` with the computed margin and
best score. -/
def classifyModel (classes : List String) (scores : List ℚ) :
    ClassificationResult :=
  if marginOf scores < CONFIDENCE_MARGIN then
    ⟨some LABEL_OTHER, marginOf scores, bestScoreOf scores⟩
  else
    ⟨some (classes.getD (argmaxIdx scores) ""), marginOf scores,
      bestScoreOf scores⟩

/-- The `/classify` endpoint body from main.py, with the trained model
abstracted as the class list `classes` (`clf.classes_`) and the decision
function `dec` (`clf.decision_function` after vectorizing). -/
def classify (classes : List String) (dec : String → List ℚ)
    (input : String) : ClassificationResult :=
  let text := clean_text input
  if text = "" then ⟨none, 0, 0⟩
  else
    match rule_based_label text with
    | some rb_label => ⟨some rb_label, 1, 1⟩
    | none => classifyModel classes (dec text)

/-- Spec-side view: the maximum per-label hit count over a keyword table. -/
def mhOf (L : List (String × List String)) (t : String) : Nat :=
  (L.map (fun p => entryHits t p.2)).foldr max 0

/-- Spec-side view: `maxHits` over the configured table (the text is already
lower-cased by the caller). -/
def maxHits (t : String) : Nat :=
  mhOf KEYWORDS t

/-- Spec-side view: the first label in table order whose hit count equals
`m`. -/
def firstBestAux (t : String) (m : Nat) :
    List (String × List String) → Option String
  | [] => none
  | p :: L => if entryHits t p.2 = m then some p.1 else firstBestAux t m L

/-- Spec-side view: the earliest label in the table's insertion order
achieving the maximum hit count (`bestLabel`). -/
def bestLabel (t : String) : Option String :=
  firstBestAux t (maxHits t) KEYWORDS

/-- The configured keyword list of one label. -/
def labelKeywords (lab : String) : List String :=
  ((KEYWORDS.find? (fun p => p.1 == lab)).map Prod.snd).getD []

/-- Per-label table-entry hit count of a lower-cased text. -/
def labelHits (t lab : String) : Nat :=
  entryHits t (labelKeywords lab)

/-- The number of distinct configured phrases of a keyword list occurring in
the text (the count the specification describes: duplicated table entries
counted once). -/
def distinctHits (t : String) (kws : List String) : Nat :=
  ((kws.filter (fun kw => strContains t kw)).dedup).length

/-- The disjunction of every rule condition of `category_rules` is false:
the category core matches no canonical-label rule. -/
def matchesNoRule (cl : String) : Bool :=
  !(strStarts cl "specification" || strContains cl "intent mismatch" ||
    strStarts cl "logic" || strContains cl "semantic" ||
    strStarts cl "build" || strContains cl "ci/environment" ||
    strContains cl "environment failure" ||
    strStarts cl "style" || strContains cl "convention violation" ||
    strStarts cl "testing" || strContains cl "testing inadequacy" ||
    strContains cl "missing, weak, or incorrect tests" ||
    strStarts cl "architectural" || strContains cl "design misfit" ||
    strStarts cl "process" || strStarts cl "policy" ||
    strStarts cl "tool-use" || strStarts cl "tool use" ||
    strContains cl "automation error" || strStarts cl "other")

/-- Concrete CSV row: text plus an unrecognized category string. -/
def rowA : Row :=
  ⟨some "alpha beta gamma", none, none, none, some "banana", none, none⟩

/-- Concrete CSV row: text plus a recognized category string. -/
def rowB : Row :=
  ⟨some "delta epsilon", none, none, none, some "logic error", none, none⟩

/-- A source whose utf-8-sig read yields one row and then hits a
`UnicodeDecodeError`, while the plain utf-8 read parses both rows. -/
def attemptC6 : String → ReadOutcome := fun enc =>
  if enc = "utf-8-sig" then ReadOutcome.decodeFail [rowA]
  else if enc = "utf-8" then ReadOutcome.ok [rowA, rowB]
  else ReadOutcome.ok []

/-- A source that decode-fails under every encoding, each attempt first
yielding one row. -/
def attemptAllFail : String → ReadOutcome := fun _ =>
  ReadOutcome.decodeFail [rowA]

theorem entryHits_nil (t : String) : entryHits t [] = 0 := rfl

theorem scoresOf_cons (p : String × List String)
    (L : List (String × List String)) (t : String) :
    scoresOf (p :: L) t =
      if 0 < entryHits t p.2 then (p.1, entryHits t p.2) :: scoresOf L t
      else scoresOf L t := by
  by_cases h : p.2.isEmpty
  · have hnil : p.2 = [] := by simpa [List.isEmpty_iff] using h
    simp [scoresOf, List.filterMap_cons, h, hnil, entryHits_nil]
  · simp only [scoresOf, List.filterMap_cons, h]
    split <;> simp_all

theorem mhOf_cons (p : String × List String)
    (L : List (String × List String)) (t : String) :
    mhOf (p :: L) t = max (entryHits t p.2) (mhOf L t) := rfl

/-- Python's first-maximum dict extremum over the `scores` assoc list agrees
with the spec-side description: when the maximum hit count is positive it
returns that count together with the earliest label in table order achieving
it, and when it is zero the `scores` dict is empty. -/
theorem pyMax_scores (t : String) (L : List (String × List String)) :
    (mhOf L t = 0 ∧ pyMaxByVal (scoresOf L t) = none) ∨
    (0 < mhOf L t ∧ ∃ l, pyMaxByVal (scoresOf L t) = some (l, mhOf L t) ∧
      firstBestAux t (mhOf L t) L = some l) := by
  induction L with
  | nil => exact Or.inl ⟨rfl, rfl⟩
  | cons p L ih =>
    rcases ih with ⟨hm0, hpm⟩ | ⟨hmpos, l, hpm, hfb⟩
    · by_cases hcpos : 0 < entryHits t p.2
      · right
        have hmax : mhOf (p :: L) t = entryHits t p.2 := by
          rw [mhOf_cons, hm0]; omega
        refine ⟨by omega, p.1, ?_, ?_⟩
        · rw [scoresOf_cons, if_pos hcpos, hmax]
          simp [pyMaxByVal, hpm]
        · rw [hmax]
          simp [firstBestAux]
      · left
        have hc0 : entryHits t p.2 = 0 := by omega
        constructor
        · rw [mhOf_cons, hm0, hc0]; omega
        · rw [scoresOf_cons, if_neg hcpos]; exact hpm
    · by_cases hlt : mhOf L t < entryHits t p.2
      · right
        have hmax : mhOf (p :: L) t = entryHits t p.2 := by
          rw [mhOf_cons]; omega
        refine ⟨by omega, p.1, ?_, ?_⟩
        · rw [scoresOf_cons, if_pos (by omega), hmax]
          simp only [pyMaxByVal, hpm]
          rw [if_neg (by simpa using (by omega : ¬ entryHits t p.2 < mhOf L t))]
        · rw [hmax]
          simp [firstBestAux]
      · have hmax : mhOf (p :: L) t = mhOf L t := by
          rw [mhOf_cons]; omega
        right
        by_cases hcpos : 0 < entryHits t p.2
        · by_cases heq : entryHits t p.2 = mhOf L t
          · refine ⟨by omega, p.1, ?_, ?_⟩
            · rw [scoresOf_cons, if_pos hcpos, hmax]
              simp only [pyMaxByVal, hpm]
              rw [if_neg (by simpa using (by omega : ¬ entryHits t p.2 < mhOf L t)), heq]
            · rw [hmax]
              simp [firstBestAux, heq]
          · refine ⟨by omega, l, ?_, ?_⟩
            · rw [scoresOf_cons, if_pos hcpos, hmax]
              simp only [pyMaxByVal, hpm]
              rw [if_pos (by simpa using (by omega : entryHits t p.2 < mhOf L t))]
            · rw [hmax]
              simp only [firstBestAux]
              rw [if_neg (by omega)]
              exact hfb
        · refine ⟨by omega, l, ?_, ?_⟩
          · rw [scoresOf_cons, if_neg hcpos, hmax]
            exact hpm
          · rw [hmax]
            simp only [firstBestAux]
            rw [if_neg (by omega)]
            exact hfb

/-- `rule_based_label` computes exactly the spec-side decision: compare the
maximum hit count against the two policy branches and return the earliest
maximal label. -/
theorem rbl_spec (text : String) :
    rule_based_label text =
      (if 2 ≤ maxHits (strLower text) then bestLabel (strLower text)
       else if maxHits (strLower text) = 1 ∧
           (pyWords (strLower text)).length ≤ 8 then bestLabel (strLower text)
       else none) := by
  rcases pyMax_scores (strLower text) KEYWORDS with ⟨hm0, hpm⟩ | ⟨hmpos, l, hpm, hfb⟩
  · have hmx : maxHits (strLower text) = 0 := hm0
    simp [rule_based_label, hpm, hmx]
  · have hmx : maxHits (strLower text) = mhOf KEYWORDS (strLower text) := rfl
    have hbl : bestLabel (strLower text) = some l := by
      rw [bestLabel, hmx]; exact hfb
    simp only [rule_based_label, hpm, hbl, hmx]

/-- When the maximum hit count is positive, some label achieves it first. -/
theorem bestLabel_pos (t : String) (h : 0 < maxHits t) :
    ∃ l, bestLabel t = some l := by
  rcases pyMax_scores t KEYWORDS with ⟨hm0, _⟩ | ⟨_, l, _, hfb⟩
  · exact absurd hm0 (by have : 0 < mhOf KEYWORDS t := h; omega)
  · exact ⟨l, hfb⟩

/-- Every table entry's hit count is bounded by the tablewide maximum. -/
theorem mh_ge (t : String) {L : List (String × List String)}
    {p : String × List String} (hp : p ∈ L) :
    entryHits t p.2 ≤ mhOf L t := by
  induction L with
  | nil => cases hp
  | cons q L ih =>
    rcases List.mem_cons.mp hp with rfl | hp'
    · rw [mhOf_cons]; exact le_max_left _ _
    · rw [mhOf_cons]; exact le_trans (ih hp') (le_max_right _ _)

/-- The tablewide maximum is bounded by any common bound. -/
theorem mh_le (t : String) {L : List (String × List String)} {n : Nat}
    (h : ∀ p ∈ L, entryHits t p.2 ≤ n) : mhOf L t ≤ n := by
  induction L with
  | nil => simp [mhOf]
  | cons q L ih =>
    rw [mhOf_cons]
    exact max_le (h q (List.mem_cons_self q L))
      (ih fun p hp => h p (List.mem_cons_of_mem q hp))

/-- A keyword list none of whose phrases occurs contributes zero hits. -/
theorem entryHits_zero (t : String) {kws : List String}
    (h : ∀ kw ∈ kws, strContains t kw = false) : entryHits t kws = 0 := by
  have : kws.filter (fun kw => strContains t kw) = [] := by
    rw [List.filter_eq_nil_iff]
    intro kw hkw
    simp [h kw hkw]
  simp [entryHits, this]

/-- If no configured phrase occurs in the text, the maximum hit count is 0. -/
theorem mh_zero (t : String) {L : List (String × List String)}
    (h : ∀ p ∈ L, ∀ kw ∈ p.2, strContains t kw = false) : mhOf L t = 0 :=
  Nat.le_zero.mp (mh_le t fun p hp => Nat.le_zero.mpr (entryHits_zero t (h p hp)))

/-- In a table with pairwise distinct labels, entries are determined by their
label. -/
theorem fst_nodup_eq {L : List (String × List String)}
    (hnd : (L.map Prod.fst).Nodup) {p q : String × List String}
    (hp : p ∈ L) (hq : q ∈ L) (h : p.1 = q.1) : p = q := by
  induction L with
  | nil => cases hp
  | cons a L ih =>
    rw [List.map_cons, List.nodup_cons] at hnd
    rcases List.mem_cons.mp hp with rfl | hp' <;>
      rcases List.mem_cons.mp hq with rfl | hq'
    · rfl
    · exact absurd (h ▸ List.mem_map_of_mem Prod.fst hq') hnd.1
    · exact absurd (h ▸ List.mem_map_of_mem Prod.fst hp') hnd.1
    · exact ih hnd.2 hp' hq'

/-- `firstBestAux` finds the unique label whose hit count equals `m`. -/
theorem firstBestAux_eq (t : String) (m : Nat)
    {L : List (String × List String)} {l : String} {kws : List String}
    (hmem : (l, kws) ∈ L) (hhit : entryHits t kws = m)
    (huniq : ∀ p ∈ L, entryHits t p.2 = m → p.1 = l) :
    firstBestAux t m L = some l := by
  induction L with
  | nil => cases hmem
  | cons q L ih =>
    simp only [firstBestAux]
    by_cases hq : entryHits t q.2 = m
    · rw [if_pos hq]
      exact congrArg some (huniq q (List.mem_cons_self q L) hq)
    · rw [if_neg hq]
      rcases List.mem_cons.mp hmem with heq | hmem'
      · exact absurd (by rw [← heq]; exact hhit) hq
      · exact ih hmem' fun p hp he => huniq p (List.mem_cons_of_mem q hp) he

/-- The value stored at `np.argmax`'s index is the running maximum. -/
theorem argmaxAux_getD (full : List ℚ) (xs : List ℚ) :
    ∀ (bi i : Nat) (bv : ℚ), full.getD bi 0 = bv →
      (∀ j, xs.getD j 0 = full.getD (i + j) 0) →
      full.getD (argmaxAux bi bv i xs) 0 = xs.foldl max bv := by
  induction xs with
  | nil => intro bi i bv hbi _; simpa [argmaxAux] using hbi
  | cons x xs ih =>
    intro bi i bv hbi hx
    have hx0 : full.getD i 0 = x := by
      have := hx 0
      simpa using this.symm
    have hxs : ∀ j, xs.getD j 0 = full.getD (i + 1 + j) 0 := by
      intro j
      have := hx (j + 1)
      simpa [List.getD_cons_succ, Nat.add_assoc, Nat.add_comm 1 j] using this
    by_cases hlt : bv < x
    · simp only [argmaxAux, if_pos hlt, List.foldl_cons]
      rw [max_eq_right (le_of_lt hlt)]
      exact ih i (i + 1) x hx0 hxs
    · simp only [argmaxAux, if_neg hlt, List.foldl_cons]
      rw [max_eq_left (not_lt.mp hlt)]
      exact ih bi (i + 1) bv hbi hxs

/-- `best_score = scores[np.argmax(scores)]` is the highest score. -/
theorem bestScoreOf_eq_max (scores : List ℚ) :
    bestScoreOf scores = listMaxQ scores := by
  cases scores with
  | nil => rfl
  | cons x xs =>
    show (x :: xs).getD (argmaxAux 0 x 1 xs) 0 = xs.foldl max x
    exact argmaxAux_getD (x :: xs) xs 0 1 x rfl
      (fun j => by simp [List.getD_cons_succ, Nat.add_comm 1 j])

/-- The kernel-evaluable subtraction agrees with rational subtraction. -/
theorem qsub_eq (a b : ℚ) : qsub a b = a - b := by
  rw [qsub, Rat.mkRat_eq_divInt, Rat.divInt_eq_div]
  have ha : ((a.den : ℚ)) ≠ 0 := by exact_mod_cast a.den_ne_zero
  have hb : ((b.den : ℚ)) ≠ 0 := by exact_mod_cast b.den_ne_zero
  push_cast
  conv_rhs => rw [← Rat.num_div_den a, ← Rat.num_div_den b]
  field_simp
  ring

/-- The threshold constant is the rational 0.25. -/
theorem CONFIDENCE_MARGIN_eq : CONFIDENCE_MARGIN = 1 / 4 := by
  rw [CONFIDENCE_MARGIN, Rat.mkRat_eq_divInt, Rat.divInt_eq_div]
  norm_num

/-- The margin is the difference between the best and second-best scores. -/
theorem marginOf_eq (scores : List ℚ) :
    marginOf scores = bestScoreOf scores - secondBestOf scores := by
  rw [marginOf, qsub_eq]

/-- `List.getD` yields a list element or the default. -/
theorem getD_mem_or (l : List String) (n : Nat) (d : String) :
    l.getD n d ∈ l ∨ l.getD n d = d := by
  induction l generalizing n with
  | nil => right; simp [List.getD]
  | cons a l ih =>
    cases n with
    | zero => left; simp [List.getD]
    | succ n =>
      rcases ih n with h | h
      · left; rw [List.getD_cons_succ]; exact List.mem_cons_of_mem a h
      · right; rw [List.getD_cons_succ]; exact h

/-- `classify` on input whose normalization is empty. -/
theorem classify_empty (classes : List String) (dec : String → List ℚ)
    (input : String) (h : clean_text input = "") :
    classify classes dec input = ⟨none, 0, 0⟩ := by
  simp [classify, h]

/-- `classify` when the rule engine fires. -/
theorem classify_rule (classes : List String) (dec : String → List ℚ)
    (input rb : String) (hne : clean_text input ≠ "")
    (hr : rule_based_label (clean_text input) = some rb) :
    classify classes dec input = ⟨some rb, 1, 1⟩ := by
  simp [classify, hne, hr]

/-- `classify` when the rule engine defers to the model. -/
theorem classify_model_branch (classes : List String) (dec : String → List ℚ)
    (input : String) (hne : clean_text input ≠ "")
    (hr : rule_based_label (clean_text input) = none) :
    classify classes dec input = classifyModel classes (dec (clean_text input)) := by
  simp [classify, hne, hr]

/-- Claim C2: `rule_based_label` returns the best-scoring label (earliest
maximal label in table order) when the maximum hit count is at least 2, or
when it is exactly 1 and the lower-cased input has at most 8
whitespace-separated tokens, and returns none in every other case — in
particular when no configured phrase occurs as a substring of the
lower-cased text. -/
theorem C2_rule_policy (text : String) :
    (2 ≤ maxHits (strLower text) →
      rule_based_label text = bestLabel (strLower text) ∧
        (bestLabel (strLower text)).isSome = true) ∧
    (maxHits (strLower text) = 1 ∧ (pyWords (strLower text)).length ≤ 8 →
      rule_based_label text = bestLabel (strLower text) ∧
        (bestLabel (strLower text)).isSome = true) ∧
    (maxHits (strLower text) = 1 ∧ 8 < (pyWords (strLower text)).length →
      rule_based_label text = none) ∧
    (maxHits (strLower text) = 0 → rule_based_label text = none) ∧
    ((∀ p ∈ KEYWORDS, ∀ kw ∈ p.2, strContains (strLower text) kw = false) →
      rule_based_label text = none) := by
  have hs := rbl_spec text
  refine ⟨?_, ?_, ?_, ?_, ?_⟩
  · intro h2
    rw [hs, if_pos h2]
    rcases bestLabel_pos (strLower text) (by omega) with ⟨l, hl⟩
    exact ⟨rfl, by simp [hl]⟩
  · rintro ⟨h1, hw⟩
    rw [hs, if_neg (by omega), if_pos ⟨h1, hw⟩]
    rcases bestLabel_pos (strLower text) (by omega) with ⟨l, hl⟩
    exact ⟨rfl, by simp [hl]⟩
  · rintro ⟨h1, hw⟩
    rw [hs, if_neg (by omega), if_neg (by rintro ⟨_, h8⟩; omega)]
  · intro h0
    rw [hs, if_neg (by omega), if_neg (by rintro ⟨h1, _⟩; omega)]
  · intro hnone
    have h0 : maxHits (strLower text) = 0 := mh_zero _ hnone
    rw [hs, if_neg (by omega), if_neg (by rintro ⟨h1, _⟩; omega)]

/-- Witness for C2 at "npe nan": two Logic keywords hit, so the strong-signal
branch returns the best-scoring label. -/
theorem C2_rule_policy_witness :
    rule_based_label "npe nan" = bestLabel (strLower "npe nan") ∧
      (bestLabel (strLower "npe nan")).isSome = true :=
  (C2_rule_policy "npe nan").1 (by decide)

/-- Claim C9: on ties for the maximum keyword hit count,
`rule_based_label` returns the tied label that appears earliest in the
KEYWORDS table's fixed insertion order, and that order is exactly the
ordinal order of `ALL_LABELS`; the decision is a pure function of the
input. -/
theorem C9_tie_break (text l1 l2 l : String) (_h12 : l1 ≠ l2)
    (_ht1 : labelHits (strLower text) l1 = maxHits (strLower text))
    (_ht2 : labelHits (strLower text) l2 = maxHits (strLower text))
    (hr : rule_based_label text = some l) :
    bestLabel (strLower text) = some l ∧
      KEYWORDS.map Prod.fst = ALL_LABELS := by
  refine ⟨?_, by decide⟩
  have hs := rbl_spec text
  rw [hs] at hr
  split at hr
  · exact hr
  · split at hr
    · exact hr
    · cases hr

/-- Witness for C9 at "bug npm pip": the Logic and Tool-Use labels tie at
two hits each and the earlier label (lower ordinal) is returned. -/
theorem C9_tie_break_witness :
    bestLabel (strLower "bug npm pip") = some LABEL_LOGIC ∧
      KEYWORDS.map Prod.fst = ALL_LABELS :=
  C9_tie_break "bug npm pip" LABEL_LOGIC LABEL_TOOLING LABEL_LOGIC
    (by decide) (by decide) (by decide) (by decide)

/-- Claim C5 (amended): the per-label count is the number of keyword-table
ENTRIES present as substrings (a phrase listed twice counts twice), not the
number of distinct phrases; for every text whose entry count is exactly 2
for one label and at most 1 for every other label, the rule engine returns
that label. -/
theorem C5_entry_count (text l : String) (kws : List String)
    (hmem : (l, kws) ∈ KEYWORDS)
    (h2 : entryHits (strLower text) kws = 2)
    (hother : ∀ p ∈ KEYWORDS, p.1 ≠ l → entryHits (strLower text) p.2 ≤ 1) :
    rule_based_label text = some l := by
  have hnd : (KEYWORDS.map Prod.fst).Nodup := by decide
  have hle : ∀ p ∈ KEYWORDS, entryHits (strLower text) p.2 ≤ 2 := by
    intro p hp
    by_cases hpl : p.1 = l
    · have hpe : p = (l, kws) := fst_nodup_eq hnd hp hmem hpl
      rw [hpe]
      exact le_of_eq h2
    · exact le_trans (hother p hp hpl) (by omega)
  have hmax : maxHits (strLower text) = 2 :=
    le_antisymm (mh_le _ hle) (h2 ▸ mh_ge (strLower text) hmem)
  have huniq : ∀ p ∈ KEYWORDS, entryHits (strLower text) p.2 = 2 → p.1 = l := by
    intro p hp hp2
    by_contra hne
    have := hother p hp hne
    omega
  have hfb : firstBestAux (strLower text) 2 KEYWORDS = some l :=
    firstBestAux_eq (strLower text) 2 hmem h2 huniq
  rw [rbl_spec text, if_pos (by omega)]
  rw [bestLabel, hmax]
  exact hfb

/-- Witness for C5 (amended) at "npe risk": exactly two Logic entries hit
("npe" and "npe risk"), every other label zero. -/
theorem C5_entry_count_witness : rule_based_label "npe risk" = some LABEL_LOGIC :=
  C5_entry_count "npe risk" LABEL_LOGIC (labelKeywords LABEL_LOGIC)
    (by decide) (by decide) (by decide)

/-- Counterexample to C5 as stated: "ci ci e2e" contains exactly 2 distinct
Testing phrases ("e2e", "ci") and at most 1 distinct phrase of every other
label, yet `rule_based_label` returns the Build/CI label, because the
duplicated Build entry "ci" is counted twice, tying at 2 and winning by
table order. -/
theorem C5_distinct_counterexample :
    distinctHits (strLower "ci ci e2e") (labelKeywords LABEL_TESTING) = 2 ∧
    (∀ p ∈ KEYWORDS, p.1 ≠ LABEL_TESTING →
      distinctHits (strLower "ci ci e2e") p.2 ≤ 1) ∧
    rule_based_label "ci ci e2e" ≠ some LABEL_TESTING ∧
    rule_based_label "ci ci e2e" = some LABEL_BUILD_CI := by decide

/-- Claim C4 (amended): every configured keyword phrase is non-empty, and
every phrase except the single entry "NaN" of the Logic label is
lower-cased; mutual uniqueness within a label's list does NOT hold. -/
theorem C4_nonempty_lower :
    KEYWORDS.all (fun p => p.2.all
      (fun kw => (!(kw == "")) && (kw == "NaN" || strLower kw == kw))) = true := by
  decide

/-- Counterexample to C4 as stated: the Logic list contains the
non-lower-cased entry "NaN", and the Specification list contains the phrase
"spec" twice. -/
theorem C4_counterexample :
    "NaN" ∈ labelKeywords LABEL_LOGIC ∧ strLower "NaN" ≠ "NaN" ∧
    (labelKeywords LABEL_SPEC_INTENT).count "spec" = 2 := by decide

/-- Claim C3: whenever the rule engine returns a label for the non-empty
normalized input, `classify` returns exactly that label with the sentinel
values margin = 1.0 and best_score = 1.0; in particular on
"null pointer exception risk" it returns the Logic/Semantic label with the
sentinels. -/
theorem C3_sentinel (classes : List String) (dec : String → List ℚ)
    (input rb : String) (hne : clean_text input ≠ "")
    (hr : rule_based_label (clean_text input) = some rb) :
    classify classes dec input = ⟨some rb, 1, 1⟩ ∧
    classify classes dec "null pointer exception risk" =
      ⟨some LABEL_LOGIC, 1, 1⟩ := by
  refine ⟨classify_rule classes dec input rb hne hr, ?_⟩
  exact classify_rule classes dec "null pointer exception risk" LABEL_LOGIC
    (by decide) (by decide)

/-- Witness for C3 at "lgtm": a single Other keyword on a one-token text
fires the rule engine, and `classify` returns the sentinels. -/
theorem C3_sentinel_witness :
    classify ALL_LABELS (fun _ => []) "lgtm" = ⟨some LABEL_OTHER, 1, 1⟩ :=
  (C3_sentinel ALL_LABELS (fun _ => []) "lgtm" LABEL_OTHER (by decide)
    (by decide)).1

/-- Claim C1: when the normalized input is non-empty and the rule engine
returns no label, `classify` compares the margin (gap between the highest
score, which is what `scores[argmax]` computes, and the second-highest)
against the 0.25 threshold: below it, the catch-all label is returned with
the actually computed margin and best score; otherwise the argmax label is
returned with the same actual values. -/
theorem C1_margin_threshold (classes : List String) (dec : String → List ℚ)
    (input : String) (hne : clean_text input ≠ "")
    (hr : rule_based_label (clean_text input) = none) :
    bestScoreOf (dec (clean_text input)) = listMaxQ (dec (clean_text input)) ∧
    marginOf (dec (clean_text input)) =
      bestScoreOf (dec (clean_text input)) -
        secondBestOf (dec (clean_text input)) ∧
    CONFIDENCE_MARGIN = 1 / 4 ∧
    (marginOf (dec (clean_text input)) < CONFIDENCE_MARGIN →
      classify classes dec input =
        ⟨some LABEL_OTHER, marginOf (dec (clean_text input)),
          bestScoreOf (dec (clean_text input))⟩) ∧
    (CONFIDENCE_MARGIN ≤ marginOf (dec (clean_text input)) →
      classify classes dec input =
        ⟨some (classes.getD (argmaxIdx (dec (clean_text input))) ""),
          marginOf (dec (clean_text input)),
          bestScoreOf (dec (clean_text input))⟩) := by
  refine ⟨bestScoreOf_eq_max _, marginOf_eq _, CONFIDENCE_MARGIN_eq, ?_, ?_⟩
  · intro hm
    rw [classify_model_branch classes dec input hne hr]
    simp only [classifyModel]
    rw [if_pos hm]
  · intro hm
    rw [classify_model_branch classes dec input hne hr]
    simp only [classifyModel]
    rw [if_neg (not_lt.mpr hm)]

/-- Witness for C1 at "zzqq" (no keyword hits, so the rule engine defers)
with a score vector of margin 3 ≥ 0.25: the argmax branch is taken. -/
theorem C1_margin_threshold_witness :
    classify ALL_LABELS (fun _ => [0, 0, 0, 0, 3, 0, 0, 0, 0]) "zzqq" =
      ⟨some (ALL_LABELS.getD (argmaxIdx [0, 0, 0, 0, 3, 0, 0, 0, 0]) ""),
        marginOf [0, 0, 0, 0, 3, 0, 0, 0, 0],
        bestScoreOf [0, 0, 0, 0, 3, 0, 0, 0, 0]⟩ :=
  (C1_margin_threshold ALL_LABELS (fun _ => [0, 0, 0, 0, 3, 0, 0, 0, 0])
    "zzqq" (by decide) (by decide)).2.2.2.2 (by decide)

/-- Claim C8: `classify` on the empty string, or any input whose
normalization is empty, returns (null, 0.0, 0.0); the result is a constant
independent of the class list and decision function, so neither the rule
engine nor the classifier is consulted. -/
theorem C8_empty (classes : List String) (dec : String → List ℚ)
    (input : String) (h : clean_text input = "") :
    classify classes dec input = ⟨none, 0, 0⟩ ∧
    classify classes dec "" = ⟨none, 0, 0⟩ :=
  ⟨classify_empty classes dec input h, classify_empty classes dec "" rfl⟩

/-- Witness for C8 at a whitespace-only input. -/
theorem C8_empty_witness :
    classify ALL_LABELS (fun _ => []) "  \n  " = ⟨none, 0, 0⟩ :=
  (C8_empty ALL_LABELS (fun _ => []) "  \n  " (by decide)).1

/-- Claim C10: the seed set maps the catch-all label to the empty example
list, the seed corpus is non-empty and covers exactly 8 of the 9 labels
with no Other example, and with the classes trained from the seed corpus
alone any Other prediction of `classify` comes from the rule engine
(sentinel margin 1) or from the margin-threshold branch (margin below
0.25), never from the classifier argmax. -/
theorem C10_seed_no_other (dec : String → List ℚ) (input : String)
    (hother : (classify seedClasses dec input).predicted_label =
      some LABEL_OTHER) :
    ((SEED_LABEL_TEXTS.find? (fun p => p.1 == LABEL_OTHER)).map Prod.snd =
        some [] ∧
      train_texts [] ≠ [] ∧ LABEL_OTHER ∉ seed_labels ∧
      seedClasses.length = 8) ∧
    (((classify seedClasses dec input).margin = 1 ∧
        rule_based_label (clean_text input) = some LABEL_OTHER) ∨
      (classify seedClasses dec input).margin < CONFIDENCE_MARGIN) := by
  refine ⟨by decide, ?_⟩
  by_cases hemp : clean_text input = ""
  · rw [classify_empty seedClasses dec input hemp] at hother
    cases hother
  · cases hrl : rule_based_label (clean_text input) with
    | some rb =>
      have hc := classify_rule seedClasses dec input rb hemp hrl
      rw [hc] at hother ⊢
      left
      exact ⟨rfl, hother⟩
    | none =>
      have hc := classify_model_branch seedClasses dec input hemp hrl
      rw [hc] at hother ⊢
      simp only [classifyModel] at hother ⊢
      by_cases hm : marginOf (dec (clean_text input)) < CONFIDENCE_MARGIN
      · rw [if_pos hm]
        exact Or.inr hm
      · rw [if_neg hm] at hother
        have heq := Option.some.inj hother
        rcases getD_mem_or seedClasses
            (argmaxIdx (dec (clean_text input))) "" with hmem | hdef
        · rw [heq] at hmem
          exact absurd hmem (by decide)
        · rw [heq] at hdef
          exact absurd hdef (by decide)

/-- Witness for C10 at "zzqq" with an all-zero score vector: the margin
branch yields the Other prediction. -/
theorem C10_seed_no_other_witness :
    ((SEED_LABEL_TEXTS.find? (fun p => p.1 == LABEL_OTHER)).map Prod.snd =
        some [] ∧
      train_texts [] ≠ [] ∧ LABEL_OTHER ∉ seed_labels ∧
      seedClasses.length = 8) ∧
    (((classify seedClasses (fun _ => [0, 0, 0, 0, 0, 0, 0, 0])
          "zzqq").margin = 1 ∧
        rule_based_label (clean_text "zzqq") = some LABEL_OTHER) ∨
      (classify seedClasses (fun _ => [0, 0, 0, 0, 0, 0, 0, 0])
          "zzqq").margin < CONFIDENCE_MARGIN) :=
  C10_seed_no_other (fun _ => [0, 0, 0, 0, 0, 0, 0, 0]) "zzqq" (by decide)

/-- Claim C7 (amended): a non-empty category string always normalizes to
some canonical label — the catch-all when no rule matches — so a row with
non-empty text and a non-empty category string is never rejected; but the
EMPTY category string normalizes to `none` and its row is dropped.  The two
concrete examples of the claim hold. -/
theorem C7_default_other (raw : String) (row : Row)
    (hraw : raw ≠ "")
    (hnr : matchesNoRule (strLower (categoryCore raw)) = true)
    (htext : clean_text ((rawTextOf row).getD "") ≠ "")
    (hcat : (rawCatOf row).getD "" ≠ "") :
    normalize_category raw = some LABEL_OTHER ∧
    (∃ lab, processRow row =
      some (clean_text ((rawTextOf row).getD ""), lab)) ∧
    normalize_category "6) Architectural / Design Misfit" =
      some LABEL_DESIGN ∧
    normalize_category "banana" = some LABEL_OTHER := by
  have hrules : ∀ cl : String, matchesNoRule cl = true →
      category_rules cl = LABEL_OTHER := by
    intro cl h
    simp only [matchesNoRule, Bool.not_eq_true', Bool.or_eq_false_iff] at h
    obtain ⟨⟨⟨⟨⟨⟨⟨⟨⟨⟨⟨⟨⟨⟨⟨⟨⟨⟨⟨h1, h2⟩, h3⟩, h4⟩, h5⟩, h6⟩, h7⟩, h8⟩, h9⟩,
      h10⟩, h11⟩, h12⟩, h13⟩, h14⟩, h15⟩, h16⟩, h17⟩, h18⟩, h19⟩, h20⟩ := h
    simp [category_rules, h1, h2, h3, h4, h5, h6, h7, h8, h9, h10, h11, h12,
      h13, h14, h15, h16, h17, h18, h19, h20]
  refine ⟨?_, ?_, by decide, by decide⟩
  · rw [normalize_category, if_neg hraw]
    exact congrArg some (hrules _ hnr)
  · refine ⟨category_rules (strLower (categoryCore ((rawCatOf row).getD ""))), ?_⟩
    simp only [processRow]
    rw [if_neg htext, normalize_category, if_neg hcat]

/-- Witness for C7 at a row whose category string "banana" matches no rule:
the row is kept and labeled with the catch-all. -/
theorem C7_default_other_witness :
    normalize_category "banana" = some LABEL_OTHER ∧
    (∃ lab, processRow ⟨some "great work overall team", none, none, none,
        some "banana", none, none⟩ =
      some (clean_text ((rawTextOf ⟨some "great work overall team", none,
        none, none, some "banana", none, none⟩).getD ""), lab)) ∧
    normalize_category "6) Architectural / Design Misfit" =
      some LABEL_DESIGN ∧
    normalize_category "banana" = some LABEL_OTHER :=
  C7_default_other "banana"
    ⟨some "great work overall team", none, none, none, some "banana", none,
      none⟩ (by decide) (by decide) (by decide) (by decide)

/-- Counterexample to C7 as stated: `normalize_category` maps the empty
category string (which matches no canonical-label rule) to `none`, not to
the catch-all, and the loader rejects a row with non-empty text whose
category field is missing. -/
theorem C7_rejection_counterexample :
    normalize_category "" = none ∧
    processRow ⟨some "this text is clearly present", none, none, none, none,
      none, none⟩ = none ∧
    clean_text "this text is clearly present" ≠ "" := by decide

/-- Claim C6 (code evaluation): a source whose first encoding attempt
decode-fails after yielding one row and whose second attempt parses both
rows contributes the first row TWICE (the failed attempt is not rolled
back); a source failing under every encoding still contributes the rows
each attempt yielded before failing, four copies here, instead of
nothing. -/
theorem C6_partial_rows_kept :
    loadSource attemptC6 =
      [("alpha beta gamma", LABEL_OTHER), ("alpha beta gamma", LABEL_OTHER),
        ("delta epsilon", LABEL_LOGIC)] ∧
    loadSource attemptC6 ≠
      [("alpha beta gamma", LABEL_OTHER), ("delta epsilon", LABEL_LOGIC)] ∧
    loadSource attemptAllFail =
      [("alpha beta gamma", LABEL_OTHER), ("alpha beta gamma", LABEL_OTHER),
        ("alpha beta gamma", LABEL_OTHER),
        ("alpha beta gamma", LABEL_OTHER)] ∧
    loadSource attemptAllFail ≠ [] := by decide

end PRClassifier
